import Mathlib

/-!
Verification of the OTP (one-time passcode) subsystem of the mail module.

The embedding models the OTP store, the rate limiter with exponential
backoff, code generation, one-shot validation, and the expiry-timer
callback.  Times are `Date.now()` millisecond values, modelled as `Int`.
Randomness (the six digit draws), the two clock reads inside `sendOTP`
and the outcome of the mail-delivery call are passed as explicit
parameters.  JavaScript truthiness of `lastSendTime` (where the value
`0` is falsy) is modelled explicitly.
-/

namespace Otp

/-- One record of the `OTP` map: `{ code, lastSendTime?, recentSendCount }`. -/
structure OTPEntry where
  code : String
  lastSendTime : Option Int
  recentSendCount : Nat
deriving Repr, DecidableEq

/-- The module-level `OTP: Record<string, OTPEntry>` map, as an association list. -/
abbrev Store := List (String × OTPEntry)

/-- `OTP[email]` — lookup in the record. -/
def getEntry : Store → String → Option OTPEntry
  | [], _ => none
  | (k, v) :: rest, email => if k = email then some v else getEntry rest email

/-- `OTP[email] = entry` — assignment in the record (overwrite or add). -/
def setEntry : Store → String → OTPEntry → Store
  | [], email, v => [(email, v)]
  | (k, v') :: rest, email, v =>
      if k = email then (email, v) :: rest else (k, v') :: setEntry rest email v

/-- `delete OTP[email]` — key removal from the record. -/
def delEntry : Store → String → Store
  | [], _ => []
  | (k, v) :: rest, email =>
      if k = email then delEntry rest email else (k, v) :: delEntry rest email

@[simp] theorem getEntry_setEntry_self (s : Store) (email : String) (v : OTPEntry) :
    getEntry (setEntry s email v) email = some v := by
  induction s with
  | nil => simp [setEntry, getEntry]
  | cons hd tl ih =>
      obtain ⟨k, v'⟩ := hd
      by_cases h : k = email <;> simp [setEntry, getEntry, h, ih]

theorem getEntry_setEntry_other (s : Store) (email k : String) (v : OTPEntry)
    (hne : k ≠ email) : getEntry (setEntry s email v) k = getEntry s k := by
  induction s with
  | nil => simp [setEntry, getEntry, Ne.symm hne]
  | cons hd tl ih =>
      obtain ⟨k', v'⟩ := hd
      by_cases h : k' = email
      · subst h
        simp [setEntry, getEntry, Ne.symm hne]
      · by_cases h2 : k' = k
        · subst h2
          simp [setEntry, getEntry, h]
        · simp [setEntry, getEntry, h, h2, ih]

@[simp] theorem getEntry_delEntry_self (s : Store) (email : String) :
    getEntry (delEntry s email) email = none := by
  induction s with
  | nil => simp [delEntry, getEntry]
  | cons hd tl ih =>
      obtain ⟨k, v⟩ := hd
      by_cases h : k = email <;> simp [delEntry, getEntry, h, ih]

theorem getEntry_delEntry_other (s : Store) (email k : String)
    (hne : k ≠ email) : getEntry (delEntry s email) k = getEntry s k := by
  induction s with
  | nil => simp [delEntry, getEntry]
  | cons hd tl ih =>
      obtain ⟨k', v⟩ := hd
      by_cases h : k' = email
      · subst h
        simp [delEntry, getEntry, Ne.symm hne, ih]
      · by_cases h2 : k' = k
        · subst h2
          simp [delEntry, getEntry, h]
        · simp [delEntry, getEntry, h, h2, ih]

/-- `OTP_RATE_LIMIT_MS = 60000` — 1 minute base rate limit. -/
def OTP_RATE_LIMIT_MS : Int := 60000

/-- `OTP_EXPIRE_MS = 6 * 60 * 60 * 1000` — 6 hours. -/
def OTP_EXPIRE_MS : Int := 6 * 60 * 60 * 1000

/-- `OTP_EXPIRE_TOLERANCE_MS = 60 * 1000` — 60 seconds. -/
def OTP_EXPIRE_TOLERANCE_MS : Int := 60 * 1000

/-- JavaScript `String.prototype.split` with a one-character separator,
on the character list of the string. -/
def splitOnChar (c : Char) : List Char → List (List Char)
  | [] => [[]]
  | x :: xs =>
      let r := splitOnChar c xs
      if x = c then [] :: r
      else
        match r with
        | [] => [[x]]
        | y :: ys => (x :: y) :: ys

/-- `email.split("@")[1]`: the second field of the split, when present. -/
def providerOf (email : String) : Option String :=
  ((splitOnChar '@' email.data).get? 1).map List.asString

theorem splitOnChar_ne_nil (c : Char) (l : List Char) : splitOnChar c l ≠ [] := by
  cases l with
  | nil => simp [splitOnChar]
  | cons x xs =>
      by_cases h : x = c
      · simp [splitOnChar, h]
      · simp only [splitOnChar, h, if_false]
        cases splitOnChar c xs <;> simp

/-- A string with no `'@'` splits into the single field holding the whole
string, so `split("@")[1]` is `undefined`. -/
theorem splitOnChar_of_not_mem (c : Char) (l : List Char) (h : c ∉ l) :
    splitOnChar c l = [l] := by
  induction l with
  | nil => simp [splitOnChar]
  | cons x xs ih =>
      simp only [List.mem_cons, not_or] at h
      have hx : x ≠ c := fun hxc => h.1 hxc.symm
      simp [splitOnChar, hx, ih h.2]

theorem providerOf_of_not_mem (email : String) (h : '@' ∉ email.data) :
    providerOf email = none := by
  simp [providerOf, splitOnChar_of_not_mem '@' email.data h]

/-- The digit alphabet of `generateOTP`. -/
def digits : List Char := "0123456789".data

/-- The six-digit code built by the generation loop, from the six random
draws `Math.floor(Math.random() * 10)`. -/
def mkOtpCode (draw : Fin 6 → Fin 10) : String :=
  ((List.finRange 6).map (fun i => digits.getD (draw i).val ' ')).asString

/-- `generateOTP(email)`: stores a fresh code, carrying over
`prev?.lastSendTime` and `prev?.recentSendCount ?? 0`. -/
def generateOTP (s : Store) (email : String) (draw : Fin 6 → Fin 10) : Store :=
  let prev := getEntry s email
  setEntry s email
    { code := mkOtpCode draw
      lastSendTime := prev.bind (·.lastSendTime)
      recentSendCount := (prev.map (·.recentSendCount)).getD 0 }

/-- `validateOTP(email, otp)`: returns the boolean result and the store
after the call.  The guard `otp && OTP[email] && OTP[email].code === otp`
requires a non-empty submitted code (empty string is falsy), an existing
record, and exact string equality. -/
def validateOTP (s : Store) (email otp : String) : Bool × Store :=
  match getEntry s email with
  | some entry =>
      if otp ≠ "" ∧ entry.code = otp then (true, delEntry s email) else (false, s)
  | none => (false, s)

/-- The messages `sendOTP` can return, one constructor per template in the
source.  `waitMinutes`/`waitSeconds` carry the interpolated number and the
plural flag (`n > 1 ? 's' : ''`). -/
inductive OtpMsg where
  | disposable
  | waitMinutes (n : Int) (plural : Bool)
  | waitSeconds (n : Int) (plural : Bool)
  | sent
  | sendError
deriving Repr, DecidableEq

/-- The `sendOTPResponse` shape `{ msg, valid }`. -/
structure OtpResponse where
  msg : OtpMsg
  valid : Bool
deriving Repr, DecidableEq

/-- Concrete French message text of each constructor. -/
def renderMsg : OtpMsg → String
  | .disposable =>
      "Le courriel fourni appartient à un fournisseur d\x27addresses temporaires"
  | .waitMinutes n p =>
      let suffix := if p then "s" else ""
      s!"Veuillez attendre {n} minute{suffix} avant de demander à nouveau un code"
  | .waitSeconds n p =>
      let suffix := if p then "s" else ""
      s!"Veuillez attendre {n} seconde{suffix} avant de demander à nouveau un code"
  | .sent => "Un code vous a été envoyé à l\x27adresse indiquée"
  | .sendError => "Erreur lors de l\x27envoi du code par mail"

/-- `provider.toLowerCase()`, as a per-character map. -/
def jsToLower (s : String) : String := (s.data.map Char.toLower).asString

/-- `Math.ceil(a / b)` for integer `a` and positive integer `b`. -/
def ceilDiv (a b : Int) : Int := (a + b - 1) / b

/-- The backoff limit of the deny decision:
`OTP_RATE_LIMIT_MS * Math.pow(2, Math.max(0, recentSendCount - 1))`. -/
def rateLimitOf (e : OTPEntry) : Int :=
  OTP_RATE_LIMIT_MS * 2 ^ (Nat.max 0 (e.recentSendCount - 1))

/-- Result of one `sendOTP` call: the response, the store after the call,
and the `expectedLastSendTime` argument of the `scheduleOtpExpiry` timer
when one was scheduled. -/
structure SendResult where
  response : OtpResponse
  store : Store
  scheduledExpiry : Option Int
deriving Repr, DecidableEq

/-- The denial branch of the rate limiter in `sendOTP`, for an existing
entry `e` at clock value `now1`: the wait message when the request is
denied, `none` when it passes (including a falsy `lastSendTime`). -/
def rateDenyMsg (e : OTPEntry) (now1 : Int) : Option OtpMsg :=
  match e.lastSendTime with
  | some t =>
    if t ≠ 0 then
      let timeSinceLastSend := now1 - t
      let rateLimit := rateLimitOf e
      if timeSinceLastSend < rateLimit then
        let secondsLeft := ceilDiv (rateLimit - timeSinceLastSend) 1000
        let maxSecondsLeft := ceilDiv OTP_EXPIRE_MS 1000
        let clampedSecondsLeft := min secondsLeft maxSecondsLeft
        if 120 < clampedSecondsLeft then
          let minutesLeft := ceilDiv clampedSecondsLeft 60
          some (.waitMinutes minutesLeft (decide (1 < minutesLeft)))
        else
          some (.waitSeconds clampedSecondsLeft (decide (1 < clampedSecondsLeft)))
      else none
    else none
  | none => none

/-- The commit step after a successful delivery:
`OTP[email].lastSendTime = Date.now(); scheduleOtpExpiry(email,
OTP[email].lastSendTime); OTP[email].recentSendCount++`.  The unreachable
`none` arm mirrors the `TypeError` a missing entry would raise, caught by
the surrounding `try`. -/
def commitSend (s1 : Store) (email : String) (now2 : Int) : SendResult :=
  match getEntry s1 email with
  | some e1 =>
      ⟨⟨.sent, true⟩,
       setEntry s1 email
         { e1 with lastSendTime := some now2, recentSendCount := e1.recentSendCount + 1 },
       some now2⟩
  | none => ⟨⟨.sendError, false⟩, s1, none⟩

/-- `sendOTP(email)`.  `list` is the `disposableMails` array, `now1` the
`Date.now()` read of the rate check, `draw` the six random digit draws of
`generateOTP`, `deliveryOk` the outcome of `transporter.sendMail` (false
models a throw), and `now2` the `Date.now()` read of the commit step.
A missing `split("@")[1]` makes `.toLowerCase()` throw `TypeError`,
which the surrounding `try` catches into the generic error response. -/
def sendOTP (list : List String) (s : Store) (email : String)
    (now1 : Int) (draw : Fin 6 → Fin 10) (deliveryOk : Bool) (now2 : Int) :
    SendResult :=
  match providerOf email with
  | none => ⟨⟨.sendError, false⟩, s, none⟩
  | some providerRaw =>
    let provider := jsToLower providerRaw
    if provider ∈ list then
      ⟨⟨.disposable, false⟩, s, none⟩
    else
      match (getEntry s email).bind (fun e => rateDenyMsg e now1) with
      | some m => ⟨⟨m, false⟩, s, none⟩
      | none =>
        let s1 := generateOTP s email draw
        if deliveryOk then commitSend s1 email now2
        else ⟨⟨.sendError, false⟩, s1, none⟩

/-- The `setTimeout` callback of `scheduleOtpExpiry(email, expectedLastSendTime)`,
run at time `now` (at least `OTP_EXPIRE_MS` after scheduling).  The guard
`!entry?.lastSendTime` also returns when `lastSendTime` is `0` (falsy). -/
def expiryFire (s : Store) (email : String) (expected : Int) (now : Int) : Store :=
  match getEntry s email with
  | none => s
  | some entry =>
    match entry.lastSendTime with
    | none => s
    | some t =>
      if t = 0 then s
      else
        let delta := |t - expected|
        let age := now - t
        if delta ≤ OTP_EXPIRE_TOLERANCE_MS ∧ OTP_EXPIRE_MS - OTP_EXPIRE_TOLERANCE_MS ≤ age then
          delEntry s email
        else s

/-- A response message that denies the request with a wait time. -/
def isWaitDenial : OtpMsg → Bool
  | .waitMinutes _ _ => true
  | .waitSeconds _ _ => true
  | _ => false

/-- The rate-limit gate lets the request through: no record, no
`lastSendTime`, falsy (`0`) `lastSendTime`, or elapsed time at least the
backoff limit. -/
def rateGatePasses (s : Store) (email : String) (now1 : Int) : Bool :=
  match getEntry s email with
  | some e =>
    match e.lastSendTime with
    | some t => t = 0 ∨ rateLimitOf e ≤ now1 - t
    | none => true
  | none => true

/-- The store after `n` further `validateOTP(email, otp)` calls. -/
def iterValidate (s : Store) (email otp : String) : Nat → Store
  | 0 => s
  | n + 1 => (validateOTP (iterValidate s email otp n) email otp).2

theorem validateOTP_of_absent (s : Store) (email otp : String)
    (h : getEntry s email = none) : validateOTP s email otp = (false, s) := by
  simp [validateOTP, h]

theorem validateOTP_true_del (s : Store) (email otp : String)
    (h : (validateOTP s email otp).1 = true) :
    (validateOTP s email otp).2 = delEntry s email := by
  cases he : getEntry s email with
  | none => rw [validateOTP_of_absent s email otp he] at h; simp at h
  | some e =>
      by_cases hc : otp ≠ "" ∧ e.code = otp
      · simp only [validateOTP, he, if_pos hc]
      · have hval : validateOTP s email otp = (false, s) := by
          simp only [validateOTP, he, if_neg hc]
        rw [hval] at h
        simp at h

/-- C4: `validateOTP` returns true and deletes the record exactly when a
record exists, the submitted code is non-empty, and it equals the stored
code; otherwise it returns false and the entire store is unchanged. -/
theorem validateOTP_spec (s : Store) (email otp : String) :
    ((validateOTP s email otp).1 = true ↔
      otp ≠ "" ∧ ∃ e, getEntry s email = some e ∧ e.code = otp)
    ∧ ((validateOTP s email otp).1 = true →
        (validateOTP s email otp).2 = delEntry s email)
    ∧ ((validateOTP s email otp).1 = false → (validateOTP s email otp).2 = s) := by
  cases he : getEntry s email with
  | none => simp [validateOTP, he]
  | some e =>
      by_cases h : otp ≠ "" ∧ e.code = otp
      · have hval : validateOTP s email otp = (true, delEntry s email) := by
          simp only [validateOTP, he, if_pos h]
        rw [hval]
        exact ⟨⟨fun _ => ⟨h.1, e, rfl, h.2⟩, fun _ => rfl⟩, fun _ => rfl,
          fun hf => by simp at hf⟩
      · have hval : validateOTP s email otp = (false, s) := by
          simp only [validateOTP, he, if_neg h]
        rw [hval]
        refine ⟨⟨fun hf => by simp at hf, ?_⟩, fun ht => by simp at ht, fun _ => rfl⟩
        rintro ⟨h1, e', he', hc⟩
        exfalso
        obtain rfl : e = e' := by injection he'
        exact h ⟨h1, hc⟩

/-- C4 witness: on a concrete store a wrong code leaves the store intact,
and the correct non-empty code validates and deletes. -/
theorem validateOTP_spec_witness :
    ((validateOTP [("a@b", ⟨"123456", some 5, 2⟩)] "a@b" "123456").1 = true ↔
      ("123456" ≠ "" ∧ ∃ e, getEntry [("a@b", ⟨"123456", some 5, 2⟩)] "a@b" = some e ∧
        e.code = "123456"))
    ∧ ((validateOTP [("a@b", ⟨"123456", some 5, 2⟩)] "a@b" "123456").1 = true →
        (validateOTP [("a@b", ⟨"123456", some 5, 2⟩)] "a@b" "123456").2 =
          delEntry [("a@b", ⟨"123456", some 5, 2⟩)] "a@b")
    ∧ ((validateOTP [("a@b", ⟨"123456", some 5, 2⟩)] "a@b" "123456").1 = false →
        (validateOTP [("a@b", ⟨"123456", some 5, 2⟩)] "a@b" "123456").2 =
          [("a@b", ⟨"123456", some 5, 2⟩)]) :=
  validateOTP_spec [("a@b", ⟨"123456", some 5, 2⟩)] "a@b" "123456"

/-- C3: once `validateOTP` has returned true, every subsequent call with
the same address and code (with no intervening generation) returns false. -/
theorem validateOTP_at_most_once (s : Store) (email otp : String)
    (h : (validateOTP s email otp).1 = true) :
    ∀ n : Nat,
      (validateOTP (iterValidate (validateOTP s email otp).2 email otp n) email otp).1
        = false := by
  have hgone : getEntry (validateOTP s email otp).2 email = none := by
    rw [validateOTP_true_del s email otp h]
    exact getEntry_delEntry_self s email
  have key : ∀ n, getEntry (iterValidate (validateOTP s email otp).2 email otp n) email
      = none := by
    intro n
    induction n with
    | zero => exact hgone
    | succ n ih =>
        rw [iterValidate, validateOTP_of_absent _ _ _ ih]
        exact ih
  intro n
  rw [validateOTP_of_absent _ _ _ (key n)]

/-- C3 witness: a concrete code validates once, then the fifth retry
still returns false. -/
theorem validateOTP_at_most_once_witness :
    (validateOTP [("a@b", ⟨"123456", none, 0⟩)] "a@b" "123456").1 = true ∧
    (validateOTP
      (iterValidate (validateOTP [("a@b", ⟨"123456", none, 0⟩)] "a@b" "123456").2
        "a@b" "123456" 5) "a@b" "123456").1 = false :=
  ⟨by decide, validateOTP_at_most_once [("a@b", ⟨"123456", none, 0⟩)] "a@b" "123456"
    (by decide) 5⟩

theorem generateOTP_frame_other (s : Store) (email : String) (draw : Fin 6 → Fin 10)
    (k : String) (hk : k ≠ email) :
    getEntry (generateOTP s email draw) k = getEntry s k := by
  simp [generateOTP, getEntry_setEntry_other _ _ _ _ hk]

/-- C5: `generateOTP` replaces only the `code` field of an existing
record, preserving `lastSendTime` and `recentSendCount`; with no prior
record it creates one with `recentSendCount = 0` and no `lastSendTime`;
records of other addresses are untouched. -/
theorem generateOTP_preserves_rate_state (s : Store) (email : String)
    (draw : Fin 6 → Fin 10) :
    (∀ e, getEntry s email = some e →
      getEntry (generateOTP s email draw) email =
        some { code := mkOtpCode draw, lastSendTime := e.lastSendTime,
               recentSendCount := e.recentSendCount })
    ∧ (getEntry s email = none →
      getEntry (generateOTP s email draw) email =
        some { code := mkOtpCode draw, lastSendTime := none, recentSendCount := 0 })
    ∧ (∀ k, k ≠ email → getEntry (generateOTP s email draw) k = getEntry s k) := by
  refine ⟨fun e he => ?_, fun he => ?_, fun k hk => ?_⟩
  · simp [generateOTP, he]
  · simp [generateOTP, he]
  · simp [generateOTP, getEntry_setEntry_other _ _ _ _ hk]

theorem sendOTP_of_provider_none (list : List String) (s : Store) (email : String)
    (now1 : Int) (draw : Fin 6 → Fin 10) (deliveryOk : Bool) (now2 : Int)
    (h : providerOf email = none) :
    sendOTP list s email now1 draw deliveryOk now2 = ⟨⟨.sendError, false⟩, s, none⟩ := by
  unfold sendOTP
  rw [h]

theorem sendOTP_of_disposable (list : List String) (s : Store) (email p : String)
    (now1 : Int) (draw : Fin 6 → Fin 10) (deliveryOk : Bool) (now2 : Int)
    (h : providerOf email = some p) (hm : jsToLower p ∈ list) :
    sendOTP list s email now1 draw deliveryOk now2 = ⟨⟨.disposable, false⟩, s, none⟩ := by
  unfold sendOTP
  rw [h]
  simp only [hm, if_true]

theorem sendOTP_of_deny (list : List String) (s : Store) (email p : String)
    (now1 : Int) (draw : Fin 6 → Fin 10) (deliveryOk : Bool) (now2 : Int)
    (m : OtpMsg) (h : providerOf email = some p) (hm : jsToLower p ∉ list)
    (hd : (getEntry s email).bind (fun e => rateDenyMsg e now1) = some m) :
    sendOTP list s email now1 draw deliveryOk now2 = ⟨⟨m, false⟩, s, none⟩ := by
  unfold sendOTP
  rw [h]
  simp only [hm, if_false, hd]

theorem sendOTP_of_pass (list : List String) (s : Store) (email p : String)
    (now1 : Int) (draw : Fin 6 → Fin 10) (deliveryOk : Bool) (now2 : Int)
    (h : providerOf email = some p) (hm : jsToLower p ∉ list)
    (hd : (getEntry s email).bind (fun e => rateDenyMsg e now1) = none) :
    sendOTP list s email now1 draw deliveryOk now2 =
      if deliveryOk then commitSend (generateOTP s email draw) email now2
      else ⟨⟨.sendError, false⟩, generateOTP s email draw, none⟩ := by
  unfold sendOTP
  rw [h]
  simp only [hm, if_false, hd]

theorem rateDenyMsg_denied (e : OTPEntry) (now1 t : Int)
    (ht : e.lastSendTime = some t) (htz : t ≠ 0) (hlt : now1 - t < rateLimitOf e) :
    rateDenyMsg e now1 =
      some
        (if 120 < min (ceilDiv (rateLimitOf e - (now1 - t)) 1000) (ceilDiv OTP_EXPIRE_MS 1000)
         then
           .waitMinutes
             (ceilDiv
               (min (ceilDiv (rateLimitOf e - (now1 - t)) 1000) (ceilDiv OTP_EXPIRE_MS 1000)) 60)
             (decide (1 <
               ceilDiv
                 (min (ceilDiv (rateLimitOf e - (now1 - t)) 1000) (ceilDiv OTP_EXPIRE_MS 1000)) 60))
         else
           .waitSeconds
             (min (ceilDiv (rateLimitOf e - (now1 - t)) 1000) (ceilDiv OTP_EXPIRE_MS 1000))
             (decide (1 <
               min (ceilDiv (rateLimitOf e - (now1 - t)) 1000) (ceilDiv OTP_EXPIRE_MS 1000)))) := by
  simp only [rateDenyMsg, ht]
  rw [if_pos htz, if_pos hlt]
  by_cases hc :
      120 < min (ceilDiv (rateLimitOf e - (now1 - t)) 1000) (ceilDiv OTP_EXPIRE_MS 1000)
  · rw [if_pos hc, if_pos hc]
  · rw [if_neg hc, if_neg hc]

theorem rateDenyMsg_passed (e : OTPEntry) (now1 t : Int)
    (ht : e.lastSendTime = some t) (htz : t ≠ 0) (hge : rateLimitOf e ≤ now1 - t) :
    rateDenyMsg e now1 = none := by
  simp only [rateDenyMsg, ht]
  rw [if_pos htz, if_neg (not_lt.mpr hge)]

theorem rateDenyMsg_isWaitDenial (e : OTPEntry) (now1 : Int) (m : OtpMsg)
    (h : rateDenyMsg e now1 = some m) : isWaitDenial m = true := by
  cases ht : e.lastSendTime with
  | none =>
      simp only [rateDenyMsg, ht] at h
      exact Option.noConfusion h
  | some t =>
      by_cases htz : t ≠ 0
      · by_cases hlt : now1 - t < rateLimitOf e
        · rw [rateDenyMsg_denied e now1 t ht htz hlt] at h
          have hm := (Option.some_inj.mp h).symm
          rw [hm]
          by_cases hc :
              120 < min (ceilDiv (rateLimitOf e - (now1 - t)) 1000)
                (ceilDiv OTP_EXPIRE_MS 1000)
          · rw [if_pos hc]; rfl
          · rw [if_neg hc]; rfl
        · rw [rateDenyMsg_passed e now1 t ht htz (not_lt.mp hlt)] at h
          simp at h
      · simp only [rateDenyMsg, ht] at h
        rw [if_neg htz] at h
        simp at h

theorem commitSend_not_denial (s1 : Store) (email : String) (now2 : Int) :
    isWaitDenial (commitSend s1 email now2).response.msg = false := by
  unfold commitSend
  cases getEntry s1 email <;> simp [isWaitDenial]

/-- C6: a `sendOTP` call denied by the rate limiter leaves the whole
store (in particular `lastSendTime` and `recentSendCount`) unchanged and
schedules no expiry timer. -/
theorem denied_send_leaves_store_unchanged (list : List String) (s : Store)
    (email : String) (now1 : Int) (draw : Fin 6 → Fin 10) (deliveryOk : Bool) (now2 : Int)
    (h : isWaitDenial (sendOTP list s email now1 draw deliveryOk now2).response.msg = true) :
    (sendOTP list s email now1 draw deliveryOk now2).store = s ∧
    (sendOTP list s email now1 draw deliveryOk now2).scheduledExpiry = none := by
  cases hp : providerOf email with
  | none =>
      rw [sendOTP_of_provider_none list s email now1 draw deliveryOk now2 hp] at h
      simp [isWaitDenial] at h
  | some p =>
      by_cases hm : jsToLower p ∈ list
      · rw [sendOTP_of_disposable list s email p now1 draw deliveryOk now2 hp hm] at h
        simp [isWaitDenial] at h
      · cases hd : (getEntry s email).bind (fun e => rateDenyMsg e now1) with
        | some m =>
            rw [sendOTP_of_deny list s email p now1 draw deliveryOk now2 m hp hm hd]
            exact ⟨rfl, rfl⟩
        | none =>
            rw [sendOTP_of_pass list s email p now1 draw deliveryOk now2 hp hm hd] at h
            cases deliveryOk with
            | true =>
                rw [if_pos rfl] at h
                rw [commitSend_not_denial] at h
                exact absurd h (by simp)
            | false =>
                rw [if_neg (by simp)] at h
                simp [isWaitDenial] at h

/-- C6 witness: a concrete denied request (elapsed 30 s with one prior
send) keeps the store and schedules nothing. -/
theorem denied_send_leaves_store_unchanged_witness :
    isWaitDenial
      ((sendOTP [] [("a@b", ⟨"333333", some 1000, 1⟩)] "a@b" 31000
        (fun _ => 3) true 31000).response.msg) = true ∧
    ((sendOTP [] [("a@b", ⟨"333333", some 1000, 1⟩)] "a@b" 31000
        (fun _ => 3) true 31000).store) = [("a@b", ⟨"333333", some 1000, 1⟩)] ∧
    ((sendOTP [] [("a@b", ⟨"333333", some 1000, 1⟩)] "a@b" 31000
        (fun _ => 3) true 31000).scheduledExpiry) = none :=
  ⟨by decide,
   (denied_send_leaves_store_unchanged [] [("a@b", ⟨"333333", some 1000, 1⟩)] "a@b"
     31000 (fun _ => 3) true 31000 (by decide)).1,
   (denied_send_leaves_store_unchanged [] [("a@b", ⟨"333333", some 1000, 1⟩)] "a@b"
     31000 (fun _ => 3) true 31000 (by decide)).2⟩

/-- C10: an input with no `'@'` does not crash `sendOTP`: the `TypeError`
of the missing domain part is caught, the generic failure response is
returned, and the store is unchanged for every address. -/
theorem sendOTP_no_at_sign_safe (list : List String) (s : Store) (email : String)
    (now1 : Int) (draw : Fin 6 → Fin 10) (deliveryOk : Bool) (now2 : Int)
    (h : '@' ∉ email.data) :
    sendOTP list s email now1 draw deliveryOk now2 = ⟨⟨.sendError, false⟩, s, none⟩ := by
  exact sendOTP_of_provider_none list s email now1 draw deliveryOk now2
    (providerOf_of_not_mem email h)

/-- C10 witness: the concrete address `"abc"` (no `'@'`) yields the
generic failure response on a concrete store, which stays unchanged. -/
theorem sendOTP_no_at_sign_safe_witness :
    sendOTP [] [("a@b", ⟨"111111", some 5, 2⟩)] "abc" 0 (fun _ => 0) true 0 =
      ⟨⟨.sendError, false⟩, [("a@b", ⟨"111111", some 5, 2⟩)], none⟩ :=
  sendOTP_no_at_sign_safe [] [("a@b", ⟨"111111", some 5, 2⟩)] "abc" 0 (fun _ => 0) true 0
    (by decide)

/-- C5 witness: on a concrete store with an entry and a bystander key,
the code is replaced, the rate state is kept, the bystander untouched. -/
theorem generateOTP_preserves_rate_state_witness :
    getEntry (generateOTP [("a@b", ⟨"111111", some 5, 2⟩), ("c@d", ⟨"222222", some 9, 7⟩)]
        "a@b" (fun _ => 0)) "a@b" = some ⟨"000000", some 5, 2⟩ ∧
    getEntry (generateOTP [("a@b", ⟨"111111", some 5, 2⟩), ("c@d", ⟨"222222", some 9, 7⟩)]
        "a@b" (fun _ => 0)) "c@d" = some ⟨"222222", some 9, 7⟩ :=
  ⟨(generateOTP_preserves_rate_state
      [("a@b", ⟨"111111", some 5, 2⟩), ("c@d", ⟨"222222", some 9, 7⟩)] "a@b"
      (fun _ => 0)).1 ⟨"111111", some 5, 2⟩ (by decide),
   (generateOTP_preserves_rate_state
      [("a@b", ⟨"111111", some 5, 2⟩), ("c@d", ⟨"222222", some 9, 7⟩)] "a@b"
      (fun _ => 0)).2.2 "c@d" (by decide)⟩

theorem rateDenyMsg_none_of_zero (e : OTPEntry) (now1 : Int)
    (ht : e.lastSendTime = some 0) : rateDenyMsg e now1 = none := by
  simp only [rateDenyMsg, ht]
  rw [if_neg (by simp)]

theorem pass_not_denial (s : Store) (email : String) (draw : Fin 6 → Fin 10)
    (deliveryOk : Bool) (now2 : Int) :
    isWaitDenial
      (OtpResponse.msg
        (SendResult.response
          (if deliveryOk then commitSend (generateOTP s email draw) email now2
           else ⟨⟨.sendError, false⟩, generateOTP s email draw, none⟩))) = false := by
  cases deliveryOk with
  | false => rfl
  | true => exact commitSend_not_denial _ _ _

/-- C1: for a record carrying a `lastSendTime`, the deny threshold of the
rate limiter is `OTP_RATE_LIMIT_MS * 2 ^ max 0 (recentSendCount - 1)` —
that is, `base * 2 ^ (N - 1)` for the request following the `N`th
committed send (`N ≥ 1`) — and a request whose elapsed time is at least
that limit is allowed (not denied with a wait message); for a truthy
`lastSendTime` a request is denied exactly when elapsed time is below
that limit. -/
theorem sendOTP_backoff_threshold (list : List String) (s : Store) (email p : String)
    (e : OTPEntry) (t now1 : Int) (draw : Fin 6 → Fin 10) (deliveryOk : Bool) (now2 : Int)
    (hp : providerOf email = some p) (hm : jsToLower p ∉ list)
    (he : getEntry s email = some e) (ht : e.lastSendTime = some t) :
    rateLimitOf e = OTP_RATE_LIMIT_MS * 2 ^ (Nat.max 0 (e.recentSendCount - 1))
    ∧ (∀ N : Nat, 1 ≤ N → e.recentSendCount = N →
        rateLimitOf e = OTP_RATE_LIMIT_MS * 2 ^ (N - 1))
    ∧ (rateLimitOf e ≤ now1 - t →
        isWaitDenial ((sendOTP list s email now1 draw deliveryOk now2).response.msg) = false)
    ∧ (t ≠ 0 →
        (isWaitDenial ((sendOTP list s email now1 draw deliveryOk now2).response.msg) = true
          ↔ now1 - t < rateLimitOf e)) := by
  have hallow : ∀ _ : rateDenyMsg e now1 = none,
      isWaitDenial ((sendOTP list s email now1 draw deliveryOk now2).response.msg) = false := by
    intro hnone
    rw [sendOTP_of_pass list s email p now1 draw deliveryOk now2 hp hm
      (by rw [he]; exact hnone)]
    exact pass_not_denial s email draw deliveryOk now2
  refine ⟨rfl, fun N h1 hc => ?_, fun hge => ?_, fun htz => ⟨fun hden => ?_, fun hlt => ?_⟩⟩
  · subst hc
    simp [rateLimitOf, Nat.zero_max]
  · by_cases htz : t ≠ 0
    · exact hallow (rateDenyMsg_passed e now1 t ht htz hge)
    · push_neg at htz
      subst htz
      exact hallow (rateDenyMsg_none_of_zero e now1 ht)
  · by_contra hnlt
    rw [hallow (rateDenyMsg_passed e now1 t ht htz (not_lt.mp hnlt))] at hden
    exact Bool.false_ne_true hden
  · rw [sendOTP_of_deny list s email p now1 draw deliveryOk now2 _ hp hm
      (by rw [he]; exact rateDenyMsg_denied e now1 t ht htz hlt)]
    exact rateDenyMsg_isWaitDenial e now1 _ (rateDenyMsg_denied e now1 t ht htz hlt)

/-- C1 witness: with one committed send at t = 1000 the limit is one
base interval; a request at t = 61000 (elapsed exactly 60000 ms) is
allowed, and at t = 31000 it is denied. -/
theorem sendOTP_backoff_threshold_witness :
    isWaitDenial ((sendOTP [] [("a@b", ⟨"333333", some 1000, 1⟩)] "a@b" 61000
      (fun _ => 3) true 61000).response.msg) = false ∧
    isWaitDenial ((sendOTP [] [("a@b", ⟨"333333", some 1000, 1⟩)] "a@b" 31000
      (fun _ => 3) true 31000).response.msg) = true :=
  ⟨(sendOTP_backoff_threshold [] [("a@b", ⟨"333333", some 1000, 1⟩)] "a@b" "b"
      ⟨"333333", some 1000, 1⟩ 1000 61000 (fun _ => 3) true 61000
      (by decide) (by decide) (by decide) rfl).2.2.1 (by decide),
   ((sendOTP_backoff_threshold [] [("a@b", ⟨"333333", some 1000, 1⟩)] "a@b" "b"
      ⟨"333333", some 1000, 1⟩ 1000 31000 (fun _ => 3) true 31000
      (by decide) (by decide) (by decide) rfl).2.2.2 (by decide)).mpr (by decide)⟩

/-- C2 counterexample: when the delivery call fails, the `code` field of
the address's record has already been replaced by the fresh generation,
so the record is not "the same after the call as before it". -/
theorem sendOTP_delivery_failure_replaces_code :
    ((sendOTP [] [("a@b", ⟨"111111", some 1000, 1⟩)] "a@b" 100000
      (fun _ => 0) false 100000).response) = ⟨.sendError, false⟩ ∧
    (getEntry ((sendOTP [] [("a@b", ⟨"111111", some 1000, 1⟩)] "a@b" 100000
      (fun _ => 0) false 100000).store) "a@b").map (fun e => e.code) = some "000000" ∧
    (getEntry [("a@b", ⟨"111111", some 1000, 1⟩)] "a@b").map (fun e => e.code) =
      some "111111" := by
  decide

/-- C2 amended: when the delivery call fails, `sendOTP` returns the
generic failure response with `valid = false`, schedules no expiry
timer, and commits nothing to the rate limiter: `lastSendTime` and
`recentSendCount` of the address keep their previous values (an absent
record appears with `recentSendCount = 0` and no `lastSendTime`), other
addresses are untouched; only the `code` field has been replaced by the
generation step that precedes delivery. -/
theorem sendOTP_delivery_failure_no_commit (list : List String) (s : Store)
    (email p : String) (now1 : Int) (draw : Fin 6 → Fin 10) (now2 : Int)
    (hp : providerOf email = some p) (hm : jsToLower p ∉ list)
    (hgate : (getEntry s email).bind (fun e => rateDenyMsg e now1) = none) :
    (sendOTP list s email now1 draw false now2).response = ⟨.sendError, false⟩
    ∧ (sendOTP list s email now1 draw false now2).store = generateOTP s email draw
    ∧ (getEntry ((sendOTP list s email now1 draw false now2).store) email).bind
        (fun e => e.lastSendTime) = (getEntry s email).bind (fun e => e.lastSendTime)
    ∧ ((getEntry ((sendOTP list s email now1 draw false now2).store) email).map
        (fun e => e.recentSendCount)).getD 0 =
      ((getEntry s email).map (fun e => e.recentSendCount)).getD 0
    ∧ (∀ k, k ≠ email → getEntry ((sendOTP list s email now1 draw false now2).store) k =
        getEntry s k)
    ∧ (sendOTP list s email now1 draw false now2).scheduledExpiry = none := by
  have hrw := sendOTP_of_pass list s email p now1 draw false now2 hp hm hgate
  rw [if_neg (by simp)] at hrw
  rw [hrw]
  refine ⟨rfl, rfl, ?_, ?_, fun k hk => ?_, rfl⟩
  · simp [generateOTP]
  · simp [generateOTP]
  · exact (generateOTP_frame_other s email draw k hk)

/-- C2 witness: a concrete failed delivery on an existing record keeps
`lastSendTime` and `recentSendCount`. -/
theorem sendOTP_delivery_failure_no_commit_witness :
    (sendOTP [] [("a@b", ⟨"111111", some 1000, 1⟩)] "a@b" 100000
      (fun _ => 0) false 100000).response = ⟨.sendError, false⟩ ∧
    (getEntry ((sendOTP [] [("a@b", ⟨"111111", some 1000, 1⟩)] "a@b" 100000
      (fun _ => 0) false 100000).store) "a@b").bind (fun e => e.lastSendTime) =
      (getEntry [("a@b", ⟨"111111", some 1000, 1⟩)] "a@b").bind
        (fun e => e.lastSendTime) :=
  ⟨(sendOTP_delivery_failure_no_commit [] [("a@b", ⟨"111111", some 1000, 1⟩)] "a@b" "b"
      100000 (fun _ => 0) 100000 (by decide) (by decide) (by decide)).1,
   (sendOTP_delivery_failure_no_commit [] [("a@b", ⟨"111111", some 1000, 1⟩)] "a@b" "b"
      100000 (fun _ => 0) 100000 (by decide) (by decide) (by decide)).2.2.1⟩

/-- The clamped seconds figure of a denial message:
`Math.min(Math.ceil((rateLimit - timeSinceLastSend) / 1000),
Math.ceil(OTP_EXPIRE_MS / 1000))`. -/
def clampedSecondsOf (e : OTPEntry) (now1 t : Int) : Int :=
  min (ceilDiv (rateLimitOf e - (now1 - t)) 1000) (ceilDiv OTP_EXPIRE_MS 1000)

/-- C7 counterexample: with 10 committed sends the uncapped limit is
`60000 * 2^9` ms (8.53 h).  At elapsed time 7 h — beyond the capped
limit `min(limit, OTP_EXPIRE_MS)` of the claim, since 7 h ≥ 6 h — the
code still denies the request, so the deny decision does not use a
capped limit. -/
theorem sendOTP_deny_limit_uncapped :
    min (rateLimitOf ⟨"123456", some 1, 10⟩) OTP_EXPIRE_MS ≤ 25200001 - 1 ∧
    isWaitDenial ((sendOTP [] [("a@b", ⟨"123456", some 1, 10⟩)] "a@b" 25200001
      (fun _ => 0) true 25200001).response.msg) = true := by
  decide

/-- C7 amended: the deny decision compares elapsed time with the
uncapped `OTP_RATE_LIMIT_MS * 2^exponent`; only the reported wait is
clamped, to `ceil(OTP_EXPIRE_MS / 1000)` seconds.  A denied call reports
`ceil((limit - elapsed)/1000)` clamped seconds, phrased in minutes
(`ceil(clamped/60)`) when the clamped value exceeds 120 and in seconds
otherwise, and the wording is singular exactly when the displayed number
is 1 (the displayed seconds are at least 1; displayed minutes are at
least 3, hence always plural). -/
theorem sendOTP_denial_message_spec (list : List String) (s : Store) (email p : String)
    (e : OTPEntry) (t now1 : Int) (draw : Fin 6 → Fin 10) (deliveryOk : Bool) (now2 : Int)
    (hp : providerOf email = some p) (hm : jsToLower p ∉ list)
    (he : getEntry s email = some e) (ht : e.lastSendTime = some t) (htz : t ≠ 0)
    (hlt : now1 - t < rateLimitOf e) :
    (sendOTP list s email now1 draw deliveryOk now2).response =
      ⟨if 120 < clampedSecondsOf e now1 t
        then OtpMsg.waitMinutes (ceilDiv (clampedSecondsOf e now1 t) 60)
               (decide (1 < ceilDiv (clampedSecondsOf e now1 t) 60))
        else OtpMsg.waitSeconds (clampedSecondsOf e now1 t)
               (decide (1 < clampedSecondsOf e now1 t)), false⟩
    ∧ 1 ≤ clampedSecondsOf e now1 t
    ∧ clampedSecondsOf e now1 t ≤ ceilDiv OTP_EXPIRE_MS 1000
    ∧ (¬ 120 < clampedSecondsOf e now1 t →
        ((decide (1 < clampedSecondsOf e now1 t) : Bool) = false ↔
          clampedSecondsOf e now1 t = 1))
    ∧ (120 < clampedSecondsOf e now1 t →
        3 ≤ ceilDiv (clampedSecondsOf e now1 t) 60 ∧
        (decide (1 < ceilDiv (clampedSecondsOf e now1 t) 60) : Bool) = true) := by
  have hc1 : 1 ≤ clampedSecondsOf e now1 t := by
    unfold clampedSecondsOf ceilDiv
    rw [le_min_iff]
    refine ⟨?_, by decide⟩
    omega
  refine ⟨?_, hc1, ?_, fun hnc => ?_, fun hc => ?_⟩
  · rw [sendOTP_of_deny list s email p now1 draw deliveryOk now2 _ hp hm
      (by rw [he]; exact rateDenyMsg_denied e now1 t ht htz hlt)]
    rfl
  · unfold clampedSecondsOf
    exact min_le_right _ _
  · rw [decide_eq_false_iff_not]
    generalize clampedSecondsOf e now1 t = c at hc1 hnc
    constructor
    · intro hn; omega
    · intro h1; omega
  · generalize clampedSecondsOf e now1 t = c at hc1 hc
    have h3 : 3 ≤ ceilDiv c 60 := by unfold ceilDiv; omega
    exact ⟨h3, by rw [decide_eq_true_eq]; omega⟩

/-- C7 amended witness: a concrete denied request (elapsed 30 s, one
prior send) reports 30 seconds with plural wording. -/
theorem sendOTP_denial_message_spec_witness :
    (sendOTP [] [("a@b", ⟨"333333", some 1000, 1⟩)] "a@b" 31000
      (fun _ => 3) true 31000).response = ⟨OtpMsg.waitSeconds 30 true, false⟩ ∧
    1 ≤ clampedSecondsOf ⟨"333333", some 1000, 1⟩ 31000 1000 := by
  have h := sendOTP_denial_message_spec [] [("a@b", ⟨"333333", some 1000, 1⟩)] "a@b" "b"
    ⟨"333333", some 1000, 1⟩ 1000 31000 (fun _ => 3) true 31000
    (by decide) (by decide) (by decide) rfl (by decide) (by decide)
  exact ⟨by rw [h.1]; decide, h.2.1⟩

/-- C8 counterexample: a second send is committed exactly 60 s — the
tolerance — after the first (the earliest instant the rate limiter
allows).  When the first commit's timer fires at the end of its 6-hour
window, the guard still matches (`delta = 60000 ≤ tolerance`, age within
bounds) and deletes the record refreshed by the newer committed send. -/
theorem staleTimer_deletes_refreshed_record :
    ((sendOTP [] [] "a@b" 1000 (fun _ => 0) true 1000).response.valid = true ∧
     (sendOTP [] [] "a@b" 1000 (fun _ => 0) true 1000).scheduledExpiry = some 1000) ∧
    ((sendOTP [] (sendOTP [] [] "a@b" 1000 (fun _ => 0) true 1000).store "a@b" 61000
        (fun _ => 1) true 61000).response.valid = true ∧
     (getEntry ((sendOTP [] (sendOTP [] [] "a@b" 1000 (fun _ => 0) true 1000).store "a@b"
        61000 (fun _ => 1) true 61000).store) "a@b").map (fun e => e.lastSendTime) =
          some (some 61000)) ∧
    getEntry
      (expiryFire
        ((sendOTP [] (sendOTP [] [] "a@b" 1000 (fun _ => 0) true 1000).store "a@b" 61000
          (fun _ => 1) true 61000).store)
        "a@b" 1000 (1000 + OTP_EXPIRE_MS)) "a@b" = none := by
  decide

/-- C8 amended: the expiry callback deletes the record only if it still
exists with a truthy `lastSendTime` within the tolerance of the
timestamp captured at commit time and with age at least the validity
window minus the tolerance; a stale timer never deletes a record whose
`lastSendTime` differs from the captured timestamp by more than the
tolerance (at exactly the tolerance — reachable when the next send
commits exactly 60 s after the previous — the stale timer does delete
the refreshed record). -/
theorem expiryFire_guard_spec (s : Store) (email : String) (expected now : Int) :
    (∀ e, getEntry s email = some e →
      getEntry (expiryFire s email expected now) email = none →
      ∃ t, e.lastSendTime = some t ∧ t ≠ 0 ∧
        |t - expected| ≤ OTP_EXPIRE_TOLERANCE_MS ∧
        OTP_EXPIRE_MS - OTP_EXPIRE_TOLERANCE_MS ≤ now - t)
    ∧ (∀ e t, getEntry s email = some e → e.lastSendTime = some t →
        OTP_EXPIRE_TOLERANCE_MS < |t - expected| →
        expiryFire s email expected now = s) := by
  constructor
  · intro e he hdel
    cases ht : e.lastSendTime with
    | none =>
        have hfix : expiryFire s email expected now = s := by
          simp only [expiryFire, he, ht]
        rw [hfix, he] at hdel
        exact Option.noConfusion hdel
    | some t =>
        by_cases htz : t = 0
        · have hfix : expiryFire s email expected now = s := by
            simp only [expiryFire, he, ht]
            rw [if_pos htz]
          rw [hfix, he] at hdel
          exact Option.noConfusion hdel
        · by_cases hcond : |t - expected| ≤ OTP_EXPIRE_TOLERANCE_MS ∧
              OTP_EXPIRE_MS - OTP_EXPIRE_TOLERANCE_MS ≤ now - t
          · exact ⟨t, rfl, htz, hcond.1, hcond.2⟩
          · have hfix : expiryFire s email expected now = s := by
              simp only [expiryFire, he, ht]
              rw [if_neg htz, if_neg hcond]
            rw [hfix, he] at hdel
            exact Option.noConfusion hdel
  · intro e t he ht hfar
    simp only [expiryFire, he, ht]
    by_cases htz : t = 0
    · rw [if_pos htz]
    · rw [if_neg htz, if_neg (fun hcond => absurd hcond.1 (not_le.mpr hfar))]

/-- C8 amended witness: a record refreshed 199 s after the captured
timestamp (beyond the 60 s tolerance) survives the stale timer. -/
theorem expiryFire_guard_spec_witness :
    expiryFire [("a@b", ⟨"123456", some 200000, 1⟩)] "a@b" 1000 21801000 =
      [("a@b", ⟨"123456", some 200000, 1⟩)] :=
  (expiryFire_guard_spec [("a@b", ⟨"123456", some 200000, 1⟩)] "a@b" 1000 21801000).2
    ⟨"123456", some 200000, 1⟩ 200000 (by decide) rfl (by decide)

theorem rateDenyMsg_isWaitDenial_of_bind (s : Store) (email : String) (now1 : Int)
    (m : OtpMsg) (hd : (getEntry s email).bind (fun e => rateDenyMsg e now1) = some m) :
    isWaitDenial m = true := by
  cases he : getEntry s email with
  | none => rw [he] at hd; exact Option.noConfusion hd
  | some e => rw [he] at hd; exact rateDenyMsg_isWaitDenial e now1 m hd

theorem commitSend_msg (s1 : Store) (email : String) (now2 : Int) :
    (commitSend s1 email now2).response.msg = .sent ∨
    (commitSend s1 email now2).response.msg = .sendError := by
  unfold commitSend
  cases getEntry s1 email with
  | none => exact Or.inr rfl
  | some e1 => exact Or.inl rfl

/-- C9 counterexample: the list holds `"A.com"` and the address's domain
part is the very same string `"A.com"`, yet the call is not rejected as
disposable (the code lowercases the domain before the lookup) and it
even mutates the store. -/
theorem disposable_case_sensitive_miss :
    providerOf "x@A.com" = some "A.com" ∧
    "A.com" ∈ (["A.com"] : List String) ∧
    ((sendOTP ["A.com"] [] "x@A.com" 0 (fun _ => 0) false 0).response.msg) ≠
      OtpMsg.disposable ∧
    (sendOTP ["A.com"] [] "x@A.com" 0 (fun _ => 0) false 0).store ≠ ([] : Store) := by
  decide

/-- C9 amended: an address whose lowercased domain part is in the
disposable list is rejected with the fixed disposable message,
`valid = false`, before any rate-limit check and with no state change;
and with an empty list (the fail-open fallback when loading the list
fails) no address is ever rejected as disposable. -/
theorem disposable_reject_spec :
    (∀ (list : List String) (s : Store) (email p : String) (now1 : Int)
        (draw : Fin 6 → Fin 10) (deliveryOk : Bool) (now2 : Int),
      providerOf email = some p → jsToLower p ∈ list →
      sendOTP list s email now1 draw deliveryOk now2 = ⟨⟨.disposable, false⟩, s, none⟩)
    ∧ (∀ (s : Store) (email : String) (now1 : Int) (draw : Fin 6 → Fin 10)
        (deliveryOk : Bool) (now2 : Int),
      ((sendOTP [] s email now1 draw deliveryOk now2).response.msg) ≠ OtpMsg.disposable) := by
  constructor
  · intro list s email p now1 draw deliveryOk now2 hp hm
    exact sendOTP_of_disposable list s email p now1 draw deliveryOk now2 hp hm
  · intro s email now1 draw deliveryOk now2
    cases hp : providerOf email with
    | none =>
        rw [sendOTP_of_provider_none [] s email now1 draw deliveryOk now2 hp]
        exact fun h => OtpMsg.noConfusion h
    | some p =>
        cases hd : (getEntry s email).bind (fun e => rateDenyMsg e now1) with
        | some m =>
            rw [sendOTP_of_deny [] s email p now1 draw deliveryOk now2 m hp
              (List.not_mem_nil _) hd]
            intro hdisp
            have hwait := rateDenyMsg_isWaitDenial_of_bind s email now1 m hd
            have hm : m = OtpMsg.disposable := hdisp
            rw [hm] at hwait
            exact absurd hwait (by decide)
        | none =>
            rw [sendOTP_of_pass [] s email p now1 draw deliveryOk now2 hp
              (List.not_mem_nil _) hd]
            cases deliveryOk with
            | false => exact fun h => OtpMsg.noConfusion h
            | true =>
                intro hdisp
                have hdisp2 : (commitSend (generateOTP s email draw) email now2).response.msg
                    = OtpMsg.disposable := hdisp
                rcases commitSend_msg (generateOTP s email draw) email now2 with h | h <;>
                  · rw [h] at hdisp2
                    exact OtpMsg.noConfusion hdisp2

/-- C9 amended witness: a lowercase-listed domain is rejected without
state change, on a concrete input. -/
theorem disposable_reject_spec_witness :
    sendOTP ["a.com"] [("z@q", ⟨"111111", some 5, 2⟩)] "x@A.com" 0 (fun _ => 0) true 0 =
      ⟨⟨.disposable, false⟩, [("z@q", ⟨"111111", some 5, 2⟩)], none⟩ ∧
    ((sendOTP [] [] "x@A.com" 0 (fun _ => 0) false 0).response.msg) ≠ OtpMsg.disposable :=
  ⟨(disposable_reject_spec).1 ["a.com"] [("z@q", ⟨"111111", some 5, 2⟩)] "x@A.com" "A.com"
      0 (fun _ => 0) true 0 (by decide) (by decide),
   (disposable_reject_spec).2 [] "x@A.com" 0 (fun _ => 0) false 0⟩

end Otp
